import Mathlib

/-
Shallow embedding of rimasumdev/carServicesServer (src/index.js).

The server is an Express application over two MongoDB collections,
`services` and `orders`.  We model documents as Lean structures, the two
collections as lists inside a `State`, and every route handler as a pure
function `... → State → Response × State × List Eff`, where the `List Eff`
component is the trace of database operations issued (and tokens signed)
while handling the request.  A handler that answers without touching the
database produces the empty trace.

Modelling conventions, each tied to a place in the source:
  * `jsonwebtoken` HS256 tokens (jwt.sign / jwt.verify, src/index.js:58,86)
    are modelled as a payload {email, exp} plus a numeric signature computed
    from the secret and the payload; `jwtVerify` succeeds exactly when the
    signature matches and the token is not expired (now < exp).
  * `new ObjectId(id)` (src/index.js:148,196,206) throws on a string that is
    not 24 hexadecimal characters; the framework surfaces the throw from the
    handler as a 500 response ("Partial failure (e.g., malformed id)
    surfaces as a server error" per the design document).  `objectIdValid`
    is that well-formedness check.
  * `$regex` with option "i" (src/index.js:119-131) is modelled as
    case-insensitive substring containment (`ciContains`); the empty pattern
    matches every string, as the empty regular expression does.
  * `find(query).toArray()` is `List.filter`, `findOne` is `List.find?`,
    `updateOne` / `deleteOne` affect the first matching document only.
-/

namespace CarServices

/-- Order document: generated unique `_id` (24-char hex string), the `email`
field the API filters on, the mutable `status` field, and all remaining
client-supplied fields as an association list. -/
structure OrderDoc where
  oid : String
  email : String
  status : Option String
  extra : List (String × String)
deriving DecidableEq

/-- Service catalog document with the fields the search endpoint inspects
(title, service_id, price, description) and its `_id` as a hex string. -/
structure ServiceDoc where
  oid : String
  title : String
  service_id : String
  price : String
  description : String
deriving DecidableEq

/-- Database state: the two collections of carDB (src/index.js:72-73). -/
structure State where
  services : List ServiceDoc
  orders : List OrderDoc
deriving DecidableEq

/-- Decoded JWT payload: `jwt.sign({ email }, secret, { expiresIn: "1h" })`
produces a payload with the email claim and an expiry timestamp. -/
structure JwtPayload where
  email : String
  exp : Nat
deriving DecidableEq

/-- Numeric code of a string, used to model the HS256 signature. -/
def strCode (s : String) : Nat :=
  s.toList.foldl (fun a c => a * 256 + c.toNat) 0

/-- Model of the HS256 signature of a payload under the server secret: a
positive number depending on the secret and both payload claims. -/
def sigOf (secret : String) (p : JwtPayload) : Nat :=
  (strCode (secret ++ "." ++ p.email) + 1) * (p.exp + 1)

/-- Signed token: payload plus signature (a JWT as produced by jwt.sign). -/
structure Token where
  payload : JwtPayload
  sig : Nat
deriving DecidableEq

/-- Model of `jwt.sign({ email }, secret, { expiresIn: "1h", algorithm:
"HS256" })` (src/index.js:86-93): expiry one hour (3600 s) from now. -/
def jwtSign (secret email : String) (now : Nat) : Token :=
  let p : JwtPayload := { email := email, exp := now + 3600 }
  { payload := p, sig := sigOf secret p }

/-- Model of `jwt.verify(token, secret, cb)` (src/index.js:58): the callback
receives the decoded payload when the signature matches the secret and the
token is not expired, and an error otherwise. -/
def jwtVerify (secret : String) (now : Nat) (t : Token) : Option JwtPayload :=
  if t.sig = sigOf secret t.payload ∧ now < t.payload.exp then some t.payload else none

/-- Hexadecimal digit test for ObjectId well-formedness. -/
def isHexChar (c : Char) : Bool :=
  c.isDigit || ('a' ≤ c && c ≤ 'f') || ('A' ≤ c && c ≤ 'F')

/-- Well-formedness of a string accepted by `new ObjectId(id)`: 24
hexadecimal characters; anything else makes the constructor throw. -/
def objectIdValid (id : String) : Bool :=
  id.length == 24 && id.toList.all isHexChar

/-- Lower-cased character list of a string (the "i" regex option). -/
def lowerChars (s : String) : List Char :=
  s.toList.map Char.toLower

/-- Test whether the second list is a leading segment of the first. -/
def listStartsWith : List Char → List Char → Bool
  | _, [] => true
  | [], _ :: _ => false
  | c :: cs, p :: ps => c == p && listStartsWith cs ps

/-- Test whether `pat` occurs contiguously inside `l`. -/
def listInfix (pat : List Char) : List Char → Bool
  | [] => listStartsWith [] pat
  | c :: rest => listStartsWith (c :: rest) pat || listInfix pat rest

/-- Case-insensitive substring test: model of `$regex: term, $options: "i"`
for patterns without metacharacters; the empty pattern matches any string. -/
def ciContains (s pat : String) : Bool :=
  pat == "" || listInfix (lowerChars pat) (lowerChars s)

/-- Predicate of the `$or` search query of GET /services
(src/index.js:118-133): the term is matched case-insensitively against
title, service_id, price, description, and the stringified _id. -/
def matchesService (term : String) (d : ServiceDoc) : Bool :=
  ciContains d.title term || ciContains d.service_id term ||
  ciContains d.price term || ciContains d.description term ||
  ciContains d.oid term

/-- Model of `updateOne({_id}, { $set: { status } })` (src/index.js:198-199):
the first document with the given id gets its status field replaced; all
other documents and fields are untouched. -/
def updateFirst (l : List OrderDoc) (id s : String) : List OrderDoc :=
  match l with
  | [] => []
  | o :: rest =>
    if o.oid = id then { o with status := some s } :: rest
    else o :: updateFirst rest id s

/-- Model of `deleteOne({_id})` (src/index.js:207): removes the first
document with the given id. -/
def deleteFirst (l : List OrderDoc) (id : String) : List OrderDoc :=
  match l with
  | [] => []
  | o :: rest => if o.oid = id then rest else o :: deleteFirst rest id

/-- Observable effects of one request: the database operations issued
against the two collections, and any token signing. -/
inductive Eff where
  | dbFindServices (term : String)
  | dbFindServiceById (id : String)
  | dbInsertOrder (o : OrderDoc)
  | dbFindOrders (email : String)
  | dbUpdateOrder (id s : String)
  | dbDeleteOrder (id : String)
  | jwtSigned (t : Token)
deriving DecidableEq

/-- Cookie SameSite attribute. -/
inductive SameSite where
  | strict
  | lax
  | none
deriving DecidableEq

/-- Cookie set by `res.cookie(name, token, opts)` (src/index.js:96-101). -/
structure SetCookie where
  name : String
  value : Token
  httpOnly : Bool
  secure : Bool
  sameSite : SameSite
  maxAge : Nat
deriving DecidableEq

/-- Response bodies the handlers send. -/
inductive Body where
  | error (message : String)
  | errorFlag
  | internalError
  | success
  | text (s : String)
  | orderList (l : List OrderDoc)
  | serviceList (l : List ServiceDoc)
  | serviceView (r : Option (String × String))
  | insertOneResult (id : String)
  | updateOneResult (matched : Nat)
  | deleteOneResult (deleted : Nat)
deriving DecidableEq

/-- HTTP response: status, JSON body, and the cookie actions taken. -/
structure Response where
  status : Nat
  body : Body
  setCookie : Option SetCookie
  clearCookie : Bool
deriving DecidableEq

/-- Result of handling one request: response, next database state, trace. -/
abbrev HResult := Response × State × List Eff

def okResp (b : Body) : Response :=
  { status := 200, body := b, setCookie := none, clearCookie := false }

def errResp (code : Nat) (msg : String) : Response :=
  { status := code, body := .error msg, setCookie := none, clearCookie := false }

/-- 401 body sent by verifyJWT (src/index.js:52-55,60-63). -/
def unauthorizedToken : Response := errResp 401 "Unauthorized access by token"

/-- 401 body sent by the /orders email checks (src/index.js:177-186). -/
def unauthorizedEmail : Response := errResp 401 "Unauthorized access by email"

/-- 500 response produced by the framework when a handler throws (e.g. a
malformed ObjectId in a handler without a try/catch). -/
def frameworkError : Response :=
  { status := 500, body := .internalError, setCookie := none, clearCookie := false }

/-- Incoming requests, one constructor per route of src/index.js.  Only
GET /orders reads the access_token cookie, so only it carries one; a present
but unparsable or tampered cookie is a `some` token failing `jwtVerify`. -/
inductive Request where
  | postJwt (email : Option String)
  | postLogout
  | getServices (search : Option String)
  | getServiceById (id : String)
  | postOrder (o : OrderDoc)
  | getOrders (cookie : Option Token) (email : Option String)
  | patchOrder (id s : String)
  | deleteOrder (id : String)
  | getRoot
deriving DecidableEq

/-- JS truthiness defaulting: `req.query.x || ""` and the `!email` test both
treat a missing value like the empty string. -/
def queryOrEmpty (q : Option String) : String :=
  match q with
  | Option.none => ""
  | some s => s

/-- POST /jwt handler (src/index.js:77-106): reject a missing or empty
email with 400; otherwise sign a 1-hour token and set the access_token
cookie with httpOnly, secure, sameSite none, maxAge one hour in ms. -/
def postJwtH (secret : String) (now : Nat) (email : Option String) (st : State) : HResult :=
  match email with
  | Option.none => (errResp 400 "Invalid request", st, [])
  | some e =>
    if e = "" then (errResp 400 "Invalid request", st, [])
    else
      let token := jwtSign secret e now
      ({ status := 200, body := .success,
         setCookie := some { name := "access_token", value := token,
                             httpOnly := true, secure := true,
                             sameSite := .none, maxAge := 60 * 60 * 1000 },
         clearCookie := false }, st, [.jwtSigned token])

/-- GET /services handler (src/index.js:115-144): filter the catalog by the
`$or` regex query built from `req.query.search || ""`. -/
def getServicesH (search : Option String) (st : State) : HResult :=
  let term := queryOrEmpty search
  (okResp (.serviceList (st.services.filter (matchesService term))), st,
   [.dbFindServices term])

/-- GET /services/:id handler (src/index.js:146-154): `new ObjectId(id)`
throws on a malformed id (500, no query); otherwise findOne with a
{title, price} projection. -/
def getServiceByIdH (id : String) (st : State) : HResult :=
  if objectIdValid id then
    (okResp (.serviceView ((st.services.find? (fun d => d.oid == id)).map
        (fun d => (d.title, d.price)))), st, [.dbFindServiceById id])
  else (frameworkError, st, [])

/-- POST /orders handler (src/index.js:157-167): insert the client-supplied
document as-is. -/
def postOrderH (o : OrderDoc) (st : State) : HResult :=
  (okResp (.insertOneResult o.oid), { st with orders := st.orders ++ [o] },
   [.dbInsertOrder o])

/-- verifyJWT middleware (src/index.js:50-67): no access_token cookie, or a
cookie failing verification, answers 401 without calling the wrapped
handler; on success the decoded payload is handed to the handler. -/
def verifyJWT (secret : String) (now : Nat) (cookie : Option Token)
    (handler : JwtPayload → State → HResult) (st : State) : HResult :=
  match cookie with
  | Option.none => (unauthorizedToken, st, [])
  | some t =>
    match jwtVerify secret now t with
    | Option.none => (unauthorizedToken, st, [])
    | some decoded => handler decoded st

/-- Inner GET /orders handler (src/index.js:170-190), run after verifyJWT:
missing/empty email query → 401; email differing from the decoded email →
401; otherwise find the orders with that email field. -/
def getOrdersCore (decoded : JwtPayload) (emailQ : Option String) (st : State) : HResult :=
  let email := queryOrEmpty emailQ
  if email = "" then (unauthorizedEmail, st, [])
  else if decoded.email ≠ email then (unauthorizedEmail, st, [])
  else (okResp (.orderList (st.orders.filter (fun o => o.email == email))), st,
        [.dbFindOrders email])

/-- PATCH /orders/:id handler (src/index.js:193-201): malformed id throws
(500, no query); otherwise updateOne setting the status field. -/
def patchOrderH (id s : String) (st : State) : HResult :=
  if objectIdValid id then
    ({ status := 200,
       body := .updateOneResult (if st.orders.any (fun o => o.oid == id) then 1 else 0),
       setCookie := none, clearCookie := false },
     { st with orders := updateFirst st.orders id s }, [.dbUpdateOrder id s])
  else (frameworkError, st, [])

/-- DELETE /orders/:id handler (src/index.js:204-209): malformed id throws
(500, no query); otherwise deleteOne. -/
def deleteOrderH (id : String) (st : State) : HResult :=
  if objectIdValid id then
    ({ status := 200,
       body := .deleteOneResult (if st.orders.any (fun o => o.oid == id) then 1 else 0),
       setCookie := none, clearCookie := false },
     { st with orders := deleteFirst st.orders id }, [.dbDeleteOrder id])
  else (frameworkError, st, [])

/-- Whole-application dispatcher: routes a request to its handler, exactly
the routes registered in src/index.js. -/
def handle (secret : String) (now : Nat) (req : Request) (st : State) : HResult :=
  match req with
  | .postJwt email => postJwtH secret now email st
  | .postLogout =>
    ({ status := 200, body := .success, setCookie := none, clearCookie := true }, st, [])
  | .getServices search => getServicesH search st
  | .getServiceById id => getServiceByIdH id st
  | .postOrder o => postOrderH o st
  | .getOrders cookie emailQ => verifyJWT secret now cookie (fun d => getOrdersCore d emailQ) st
  | .patchOrder id s => patchOrderH id s st
  | .deleteOrder id => deleteOrderH id st
  | .getRoot => (okResp (.text "Hello World"), st, [])

/-! Concrete data used by the witness theorems. -/

def svcA : ServiceDoc :=
  { oid := "aaaaaaaaaaaaaaaaaaaaaaaa", title := "Oil Change", service_id := "05",
    price := "20", description := "Full synthetic oil change" }

def svcB : ServiceDoc :=
  { oid := "bbbbbbbbbbbbbbbbbbbbbbbb", title := "Brake Repair", service_id := "06",
    price := "300", description := "Brake pads and rotors" }

def ordA : OrderDoc :=
  { oid := "111111111111111111111111", email := "a@x", status := none,
    extra := [("date", "2026-01-01")] }

def ordB : OrderDoc :=
  { oid := "222222222222222222222222", email := "b@x", status := some "pending",
    extra := [] }

def stW : State := { services := [svcA, svcB], orders := [ordA, ordB] }

/-! Helper lemmas. -/

/-- With pairwise distinct ids, updating the first match coincides with the
pointwise map that rewrites exactly the matching document's status. -/
theorem updateFirst_eq_map (id s : String) (l : List OrderDoc)
    (h : (l.map OrderDoc.oid).Nodup) :
    updateFirst l id s =
      l.map (fun o => if o.oid = id then { o with status := some s } else o) := by
  induction l with
  | nil => rfl
  | cons o rest ih =>
    rw [List.map_cons, List.nodup_cons] at h
    by_cases hoid : o.oid = id
    · have hrest : rest.map
          (fun o => if o.oid = id then { o with status := some s } else o) = rest := by
        have hfix : ∀ x ∈ rest,
            (if x.oid = id then { x with status := some s } else x) = x := by
          intro x hx
          have hxne : x.oid ≠ id := by
            intro hx2
            have hmem : o.oid ∈ rest.map OrderDoc.oid := by
              rw [hoid, ← hx2]
              exact List.mem_map_of_mem OrderDoc.oid hx
            exact h.1 hmem
          simp [hxne]
        rw [List.map_congr_left hfix]
        simp
      simp [updateFirst, hoid, hrest]
    · simp [updateFirst, hoid, ih h.2]

/-- Round trip: a freshly signed token verifies under the same secret at
its issuance time, decoding to the email with a one-hour expiry. -/
theorem jwtVerify_sign (secret email : String) (now : Nat) :
    jwtVerify secret now (jwtSign secret email now) =
      some { email := email, exp := now + 3600 } :=
  Eq.trans (if_pos ⟨rfl, Nat.lt_add_of_pos_right (by norm_num)⟩) rfl

/-! Claim theorems. -/

/-- C1: when the cookie verifies to a payload whose email differs from the
email query parameter, GET /orders answers 401 with an error body, leaves
the state unchanged, and issues no database operation (empty trace). -/
theorem getOrders_mismatch_401 (secret : String) (now : Nat) (tok : Token)
    (st : State) (p : JwtPayload) (B : String)
    (hver : jwtVerify secret now tok = some p) (hne : p.email ≠ B) :
    handle secret now (.getOrders (some tok) (some B)) st =
      (unauthorizedEmail, st, []) := by
  simp only [handle, verifyJWT, hver]
  by_cases hB : B = ""
  · simp [getOrdersCore, queryOrEmpty, hB]
  · simp [getOrdersCore, queryOrEmpty, hB, hne]

theorem getOrders_mismatch_401_witness :
    handle "s" 0 (.getOrders (some (jwtSign "s" "a@x" 0)) (some "b@x")) stW =
      (unauthorizedEmail, stW, []) :=
  getOrders_mismatch_401 "s" 0 (jwtSign "s" "a@x" 0) stW
    { email := "a@x", exp := 3600 } "b@x" (jwtVerify_sign "s" "a@x" 0) (by decide)

/-- C2: when the cookie verifies to a payload whose email equals the email
query parameter, GET /orders answers with exactly the list of orders whose
email field equals that email: the filtered list, whose membership is
characterised extensionally in the second conjunct. -/
theorem getOrders_owner_exact (secret : String) (now : Nat) (tok : Token)
    (st : State) (p : JwtPayload)
    (hver : jwtVerify secret now tok = some p) (hne : p.email ≠ "") :
    handle secret now (.getOrders (some tok) (some p.email)) st =
      (okResp (.orderList (st.orders.filter (fun o => o.email == p.email))), st,
       [.dbFindOrders p.email]) ∧
    ∀ o : OrderDoc,
      o ∈ st.orders.filter (fun o => o.email == p.email) ↔
        o ∈ st.orders ∧ o.email = p.email := by
  constructor
  · simp only [handle, verifyJWT, hver, getOrdersCore, queryOrEmpty]
    simp [hne]
  · intro o
    simp [List.mem_filter]

theorem getOrders_owner_exact_witness :
    handle "s" 0 (.getOrders (some (jwtSign "s" "a@x" 0)) (some "a@x")) stW =
      (okResp (.orderList (stW.orders.filter (fun o => o.email == "a@x"))), stW,
       [.dbFindOrders "a@x"]) ∧
    ∀ o : OrderDoc,
      o ∈ stW.orders.filter (fun o => o.email == "a@x") ↔
        o ∈ stW.orders ∧ o.email = "a@x" :=
  getOrders_owner_exact "s" 0 (jwtSign "s" "a@x" 0) stW
    { email := "a@x", exp := 3600 } (jwtVerify_sign "s" "a@x" 0) (by decide)

/-- C3: with a missing access_token cookie, or a present cookie that fails
verification (bad signature or expired), the guard answers 401 and the
wrapped handler is never executed: the result is the 401 response with
unchanged state and empty trace for EVERY possible wrapped handler, and in
particular GET /orders so answers for every email query. -/
theorem verifyJWT_rejects (secret : String) (now : Nat) (st : State)
    (cookie : Option Token)
    (hbad : cookie = none ∨ ∃ t, cookie = some t ∧ jwtVerify secret now t = none) :
    (∀ handler : JwtPayload → State → HResult,
        verifyJWT secret now cookie handler st = (unauthorizedToken, st, [])) ∧
    ∀ emailQ : Option String,
        handle secret now (.getOrders cookie emailQ) st =
          (unauthorizedToken, st, []) := by
  have hmain : ∀ handler : JwtPayload → State → HResult,
      verifyJWT secret now cookie handler st = (unauthorizedToken, st, []) := by
    intro handler
    rcases hbad with h | ⟨t, ht, hv⟩
    · subst h; rfl
    · subst ht; simp [verifyJWT, hv]
  exact ⟨hmain, fun emailQ => hmain _⟩

theorem verifyJWT_rejects_witness :
    verifyJWT "s" 0 none (fun d => getOrdersCore d (some "a@x")) stW =
      (unauthorizedToken, stW, []) ∧
    verifyJWT "s" 0 (some { payload := { email := "a@x", exp := 10 }, sig := 0 })
        (fun d => getOrdersCore d (some "a@x")) stW =
      (unauthorizedToken, stW, []) :=
  ⟨(verifyJWT_rejects "s" 0 stW none (Or.inl rfl)).1 _,
   (verifyJWT_rejects "s" 0 stW
      (some { payload := { email := "a@x", exp := 10 }, sig := 0 })
      (Or.inr ⟨_, rfl, by decide⟩)).1 _⟩

/-- C4: a path id that is not a well-formed ObjectId makes GET
/services/:id, PATCH /orders/:id and DELETE /orders/:id answer with status
500 (the framework error response, not a distinguished not-found), with no
database operation. -/
theorem malformed_id_500 (secret : String) (now : Nat) (st : State) (id : String)
    (hbad : objectIdValid id = false) :
    handle secret now (.getServiceById id) st = (frameworkError, st, []) ∧
    (∀ s : String,
        handle secret now (.patchOrder id s) st = (frameworkError, st, [])) ∧
    handle secret now (.deleteOrder id) st = (frameworkError, st, []) := by
  refine ⟨?_, fun s => ?_, ?_⟩ <;>
    simp [handle, getServiceByIdH, patchOrderH, deleteOrderH, hbad]

theorem malformed_id_500_witness :
    handle "s" 0 (.getServiceById "oops") stW = (frameworkError, stW, []) ∧
    (∀ s : String,
        handle "s" 0 (.patchOrder "oops" s) stW = (frameworkError, stW, [])) ∧
    handle "s" 0 (.deleteOrder "oops") stW = (frameworkError, stW, []) :=
  malformed_id_500 "s" 0 stW "oops" (by decide)

/-- C5: GET /services with an absent or empty search term returns the whole
catalog (the empty pattern matches every document via the stringified _id
branch of the $or), and a term matching no document in any searched field
returns the empty array. -/
theorem services_search (secret : String) (now : Nat) (st : State) (term : String)
    (hnomatch : ∀ d ∈ st.services, matchesService term d = false) :
    handle secret now (.getServices none) st =
      (okResp (.serviceList st.services), st, [.dbFindServices ""]) ∧
    handle secret now (.getServices (some "")) st =
      (okResp (.serviceList st.services), st, [.dbFindServices ""]) ∧
    handle secret now (.getServices (some term)) st =
      (okResp (.serviceList []), st, [.dbFindServices term]) := by
  have hall : st.services.filter (matchesService "") = st.services :=
    List.filter_eq_self.mpr (fun a _ => rfl)
  have hnil : st.services.filter (matchesService term) = [] :=
    List.filter_eq_nil_iff.mpr (fun a ha => by simp [hnomatch a ha])
  refine ⟨?_, ?_, ?_⟩ <;>
    simp only [handle, getServicesH, queryOrEmpty, hall, hnil]

theorem services_search_witness :
    (∀ d ∈ stW.services, matchesService "zzzz" d = false) ∧
    (handle "s" 0 (.getServices none) stW =
      (okResp (.serviceList stW.services), stW, [.dbFindServices ""]) ∧
    handle "s" 0 (.getServices (some "")) stW =
      (okResp (.serviceList stW.services), stW, [.dbFindServices ""]) ∧
    handle "s" 0 (.getServices (some "zzzz")) stW =
      (okResp (.serviceList []), stW, [.dbFindServices "zzzz"])) :=
  ⟨by decide, services_search "s" 0 stW "zzzz" (by decide)⟩

/-- C6: POST /jwt with an absent or empty email answers 400 with an error
body, sets no cookie (setCookie is none), and signs no token (the trace has
no jwtSigned event: it is empty). -/
theorem postJwt_empty_400 (secret : String) (now : Nat) (st : State) :
    handle secret now (.postJwt none) st =
      (errResp 400 "Invalid request", st, []) ∧
    handle secret now (.postJwt (some "")) st =
      (errResp 400 "Invalid request", st, []) := by
  constructor <;> rfl

/-- C7: no route ever changes the services collection: for every request
and every state, the state after handling has the same services list. -/
theorem services_readonly (secret : String) (now : Nat) (req : Request) (st : State) :
    ((handle secret now req st).2.1).services = st.services := by
  cases req <;>
    simp only [handle, postJwtH, getServicesH, getServiceByIdH, postOrderH,
      verifyJWT, getOrdersCore, patchOrderH, deleteOrderH] <;>
    first
      | rfl
      | (repeat' split) <;> rfl

/-- C8: PATCH /orders/:id with a well-formed id and pairwise-distinct order
ids rewrites the orders list pointwise: the document whose _id matches gets
exactly its status field set to the supplied value, every other document
(and the services collection) is unchanged. -/
theorem patchOrder_frame (secret : String) (now : Nat) (id s : String) (st : State)
    (hid : objectIdValid id = true)
    (hnodup : (st.orders.map OrderDoc.oid).Nodup) :
    (handle secret now (.patchOrder id s) st).2.1 =
      { st with orders := (st.orders.map
          (fun o => if o.oid = id then { o with status := some s } else o)) } := by
  simp [handle, patchOrderH, hid, updateFirst_eq_map id s st.orders hnodup]

theorem patchOrder_frame_witness :
    (handle "s" 0 (.patchOrder "111111111111111111111111" "done") stW).2.1 =
      { stW with orders := (stW.orders.map
          (fun o => if o.oid = "111111111111111111111111"
                    then { o with status := some "done" } else o)) } :=
  patchOrder_frame "s" 0 "111111111111111111111111" "done" stW
    (by decide) (by decide)

/-- C9: POST /jwt with a non-empty email answers success and sets the
access_token cookie with httpOnly, secure, sameSite none, a max age of one
hour in milliseconds, carrying the token signed with the server secret;
that token's expiry is one hour after issuance and it verifies under the
same secret. -/
theorem postJwt_sets_cookie (secret : String) (now : Nat) (st : State)
    (email : String) (hne : email ≠ "") :
    handle secret now (.postJwt (some email)) st =
      ({ status := 200, body := .success,
         setCookie := some { name := "access_token",
                             value := jwtSign secret email now,
                             httpOnly := true, secure := true,
                             sameSite := .none, maxAge := 3600000 },
         clearCookie := false }, st, [.jwtSigned (jwtSign secret email now)]) ∧
    (jwtSign secret email now).payload.exp = now + 3600 ∧
    jwtVerify secret now (jwtSign secret email now) =
      some { email := email, exp := now + 3600 } := by
  refine ⟨?_, rfl, jwtVerify_sign secret email now⟩
  simp [handle, postJwtH, hne]

theorem postJwt_sets_cookie_witness :
    handle "s" 0 (.postJwt (some "a@x")) stW =
      ({ status := 200, body := .success,
         setCookie := some { name := "access_token",
                             value := jwtSign "s" "a@x" 0,
                             httpOnly := true, secure := true,
                             sameSite := .none, maxAge := 3600000 },
         clearCookie := false }, stW, [.jwtSigned (jwtSign "s" "a@x" 0)]) ∧
    (jwtSign "s" "a@x" 0).payload.exp = 0 + 3600 ∧
    jwtVerify "s" 0 (jwtSign "s" "a@x" 0) =
      some { email := "a@x", exp := 0 + 3600 } :=
  postJwt_sets_cookie "s" 0 stW "a@x" (by decide)

/-- C10: with a valid cookie but an absent or empty email query parameter,
GET /orders answers 401 with an error body, returns no orders, and issues
no database operation (empty trace): it never falls back to listing all
orders or the credential holder's orders. -/
theorem getOrders_missing_email_401 (secret : String) (now : Nat) (tok : Token)
    (st : State) (p : JwtPayload) (emailQ : Option String)
    (hver : jwtVerify secret now tok = some p)
    (hq : emailQ = none ∨ emailQ = some "") :
    handle secret now (.getOrders (some tok) emailQ) st =
      (unauthorizedEmail, st, []) := by
  simp only [handle, verifyJWT, hver]
  rcases hq with h | h <;> subst h <;> rfl

theorem getOrders_missing_email_401_witness :
    handle "s" 0 (.getOrders (some (jwtSign "s" "a@x" 0)) none) stW =
      (unauthorizedEmail, stW, []) :=
  getOrders_missing_email_401 "s" 0 (jwtSign "s" "a@x" 0) stW
    { email := "a@x", exp := 3600 } none (jwtVerify_sign "s" "a@x" 0) (Or.inl rfl)

end CarServices
